import Mathlib

/-!
Verification of the competition repository (DeepFER facial-emotion pipeline
plus the more_emo Flask backend) against its natural-language specification.

The Python source is shallowly embedded: pure computations become Lean
functions, external libraries and services (translation API, transformer
model, dlib / OpenCV detectors, MySQL driver, ffmpeg) become explicit oracle
parameters, and stateful objects become explicit state-passing functions.
Machine integers are modelled as Int / Nat and floating-point scores as Rat,
since every property proved here concerns control flow, shapes, lengths and
exact ranges rather than rounding behaviour.
-/

set_option maxRecDepth 8000

namespace Competition

/-! ## Python string primitives used by the embedded code -/

/-- Python str.strip() on a character list: drop whitespace from both ends.
Modelled with Char.isWhitespace, which covers the ASCII whitespace that
occurs in the SQL and keyword strings of this repository. -/
def pyStripL (l : List Char) : List Char :=
  ((l.dropWhile Char.isWhitespace).reverse.dropWhile Char.isWhitespace).reverse

/-- Python str.strip() on a string. -/
def pyStrip (s : String) : String := ⟨pyStripL s.toList⟩

/-- Python truthiness of an optional string: None and the empty string are
falsy, every other string is truthy. -/
def pyTruthy : Option String → Bool
  | none => false
  | some s => !(s == "")

/-- Containment of one character list inside another, checked at every
start position. -/
def containsSub (needle : List Char) : List Char → Bool
  | [] => needle.isEmpty
  | c :: t => needle.isPrefixOf (c :: t) || containsSub needle t

/-- Python substring test needle in hay over unicode code points. -/
def pyInStr (needle hay : String) : Bool :=
  containsSub needle.toList hay.toList

/-- Python slice lst[-m:] for a non-negative m.  For m = 0 the slice is
lst[0:], i.e. the whole list (the -0 pitfall); for m >= 1 it keeps the last
m elements. -/
def pyLastSlice (m : Nat) (l : List α) : List α :=
  if m = 0 then l else l.drop (l.length - m)

/-! ## ConversationManager (more_emo/conversation_manager.py)

State of a ConversationManager instance: the history list, the turn counter
and the emotion_trend list inside self.state.  Timestamps, session ids and
the topics list play no role in the bounded-size claim and are elided. -/

/-- One entry of ConversationManager.history, as built by add_exchange. -/
structure Exchange where
  userText : String
  botText : String
  emotion : Option String
  confidence : Option Rat
deriving DecidableEq, Repr

/-- One entry of state.emotion_trend, as appended by add_exchange. -/
structure TrendEntry where
  emotion : String
  confidence : Option Rat
deriving DecidableEq, Repr

/-- The mutable fields of a ConversationManager that add_exchange and reset
touch. -/
structure ConvState where
  history : List Exchange
  turnCount : Nat
  emotionTrend : List TrendEntry
deriving DecidableEq, Repr

/-- ConversationManager.__init__: empty history, zero turns, empty trend. -/
def convInit : ConvState := ⟨[], 0, []⟩

/-- ConversationManager.add_exchange: append the exchange, bump turn_count,
append to emotion_trend when the emotion is truthy and cut that list back to
its last 10 entries when it exceeds 10, then cut history back to its last
max_history entries when it exceeds max_history.  The truncations use the
Python slices trend[-10:] and history[-max_history:]. -/
def addExchange (maxHistory : Nat) (u b : String) (emo : Option String)
    (conf : Option Rat) (s : ConvState) : ConvState :=
  let hist := s.history ++ [⟨u, b, emo, conf⟩]
  let turn := s.turnCount + 1
  let trend :=
    if pyTruthy emo then
      let t := s.emotionTrend ++ [⟨emo.getD "", conf⟩]
      if 10 < t.length then pyLastSlice 10 t else t
    else s.emotionTrend
  let hist2 := if maxHistory < hist.length then pyLastSlice maxHistory hist else hist
  ⟨hist2, turn, trend⟩

/-- ConversationManager.reset: fresh history, counters and trend. -/
def convReset : ConvState := ⟨[], 0, []⟩

/-- A call a client can make on a ConversationManager. -/
inductive ConvOp where
  | add (u b : String) (emo : Option String) (conf : Option Rat)
  | reset
deriving DecidableEq, Repr

/-- Run a sequence of add_exchange / reset calls from a given state. -/
def runConvOps (maxHistory : Nat) : List ConvOp → ConvState → ConvState
  | [], s => s
  | ConvOp.add u b e c :: ops, s => runConvOps maxHistory ops (addExchange maxHistory u b e c s)
  | ConvOp.reset :: ops, _ => runConvOps maxHistory ops convReset

/-- C8 counterexample input: a single add_exchange call on a manager built
with max_history = 0. -/
def c8Ops : List ConvOp := [ConvOp.add "hi" "hello" (some "joy") (some (7/10))]

/-! ## EmotionEngine (more_emo/emotion_engine.py)

The engine wraps two external services: the Baidu translation API (here an
oracle String to Option String, already folded with its internal
catch-to-None error handling, exactly as TranslationService.translate
behaves) and the transformer model ModelLoader.predict (an oracle that
either returns a label with a confidence or raises, modelled as Except).
Processing-time bookkeeping is elided; confidences are Rat. -/

namespace EmotionEngine

/-- Rule table self.high_priority_rules, in Python dict insertion order. -/
def high_priority_rules : List (String × String) :=
  [("呵呵", "disgust"), ("呵呵哒", "disgust"),
   ("您可真是个大聪明", "disgust"), ("真是服了", "disgust"),
   ("气死我了", "anger"), ("喜极而泣", "joy"), ("无语", "disgust"),
   ("怎么这样啊", "disgust"), ("劳累", "sad"), ("疲惫", "sad")]

/-- Rule table self.post_process_rules. -/
def post_process_rules : List (String × String) :=
  [("cried with joy", "joy"),
   ("unsettling", "sadness"),
   ("work overtime for free", "anger")]

/-- Label table self.label_mapping. -/
def label_mapping : List (String × String) :=
  [("sadness", "sadness"), ("joy", "joy"), ("love", "joy"),
   ("anger", "anger"), ("fear", "fear"), ("surprise", "surprise")]

/-- Fallback table keywords_mapping inside _fallback_analysis. -/
def keywords_mapping : List (String × String) :=
  [("开心", "joy"), ("高兴", "joy"), ("快乐", "joy"),
   ("生气", "anger"), ("愤怒", "anger"), ("恼火", "anger"),
   ("伤心", "sadness"), ("难过", "sadness"), ("悲伤", "sadness"),
   ("害怕", "fear"), ("恐惧", "fear"), ("吓人", "fear"),
   ("恶心", "disgust"), ("讨厌", "disgust")]

/-- First rule of the table whose keyword occurs in the text; the shape of
EmotionEngine._apply_rules and of the loops over the other rule tables. -/
def findRule (rules : List (String × String)) (text : String) : Option String :=
  (rules.find? (fun r => pyInStr r.1 text)).map (fun r => r.2)

/-- Python dict.get(key, default) over an association list. -/
def dictGetD (tbl : List (String × String)) (key dflt : String) : String :=
  match tbl.find? (fun r => r.1 == key) with
  | some r => r.2
  | none => dflt

/-- EmotionEngine._post_process: joy plus a surprise word in the translation
is recalibrated to surprise, then the post-process keyword rules apply,
otherwise the predicted label stands. -/
def post_process (translated predicted_label : String) : String :=
  if predicted_label == "joy" &&
      (pyInStr "surprise" translated || pyInStr "suddenly" translated) then
    "surprise"
  else
    match findRule post_process_rules translated with
    | some e => e
    | none => predicted_label

/-- Result dictionary returned by EmotionEngine.analyze (processing_time
elided; the translated key is absent, i.e. none, outside the model path). -/
structure AnalyzeResult where
  emotion : String
  confidence : Rat
  source : String
  translated : Option String
  success : Bool
deriving DecidableEq, Repr

/-- EmotionEngine._fallback_analysis: keyword match at confidence 0.7, else
neutral at 0.5, always with source fallback. -/
def fallback_analysis (text : String) : AnalyzeResult :=
  match findRule keywords_mapping text with
  | some e => ⟨e, 7/10, "fallback", none, true⟩
  | none => ⟨"neutral", 1/2, "fallback", none, true⟩

/-- EmotionEngine.analyze, instrumented with a count of external API/model
steps taken: the translation HTTP request counts one step whenever a
translation service is configured, and the ModelLoader.predict call counts
one step whenever it is attempted.  Layer one is the high-priority rule
table; layer two translates and runs the model, falling back to
_fallback_analysis when the model raises; layer three is _post_process plus
the label mapping. -/
def analyzeCounting (translate : String → Option String)
    (predict : String → Except String (String × Rat))
    (hasTranslator : Bool) (text : String) : AnalyzeResult × Nat :=
  match findRule high_priority_rules text with
  | some e => (⟨e, 1, "rule", none, true⟩, 0)
  | none =>
    let translated : Option String := if hasTranslator then translate text else none
    let calls : Nat := if hasTranslator then 1 else 0
    match translated with
    | some t =>
      match predict t with
      | Except.ok pr =>
        let final1 := post_process t pr.1
        let final2 := dictGetD label_mapping final1 final1
        (⟨final2, pr.2, "model", some t, true⟩, calls + 1)
      | Except.error _ => (fallback_analysis text, calls + 1)
    | none => (fallback_analysis text, calls)

/-- EmotionEngine.analyze itself: the result dictionary. -/
def analyze (translate : String → Option String)
    (predict : String → Except String (String × Rat))
    (hasTranslator : Bool) (text : String) : AnalyzeResult :=
  (analyzeCounting translate predict hasTranslator text).1

end EmotionEngine

/-! ## Flask endpoint handlers for post listing (more_emo/app.py)

A DictCursor row is modelled as an association list from column name to a
string value.  The database is an oracle from SQL text to either rows or a
raised exception (Except.error).  GET /api/posts has no try/except, so a
database exception propagates out of the handler; GET /api/posts/list
catches every exception and answers a JSON body with code 500. -/

/-- A DictCursor row: column name to value. -/
abbrev Row : Type := List (String × String)

/-- JSON response body of the post-listing endpoints. -/
structure ApiResp where
  code : Nat
  msg : Option String
  rows : List Row
deriving DecidableEq

/-- SQL text of GET /api/posts. -/
def getPostsSql : String := "SELECT * FROM treehole_posts ORDER BY create_time DESC"

/-- SQL text of GET /api/posts/list. -/
def getPostsListSql : String := "SELECT * FROM treehole_posts ORDER BY create_time DESC LIMIT 20"

/-- Handler of GET /api/posts: one query, no exception handling, code 200 on
success.  A database exception leaves the handler as Except.error. -/
def get_posts (dbq : String → Except String (List Row)) : Except String ApiResp :=
  (dbq getPostsSql).map (fun rows => ⟨200, none, rows⟩)

/-- Python row.get("images_json") truthiness plus the json.loads attempt of
get_posts_list: a truthy images_json is parsed with the oracle, a parse
failure or a falsy value yields an empty images list. -/
def enrichImages (jsonParse : String → Option String) (row : Row) : Row :=
  match row.find? (fun kv => kv.1 == "images_json") with
  | some kv =>
    if kv.2 == "" then row ++ [("images", "[]")]
    else
      match jsonParse kv.2 with
      | some v => row ++ [("images", v)]
      | none => row ++ [("images", "[]")]
  | none => row ++ [("images", "[]")]

/-- Handler of GET /api/posts/list: the whole body is wrapped in try/except,
every exception becomes a JSON body with code 500. -/
def get_posts_list (jsonParse : String → Option String)
    (dbq : String → Except String (List Row)) : ApiResp :=
  match dbq getPostsListSql with
  | Except.ok rows => ⟨200, none, rows.map (enrichImages jsonParse)⟩
  | Except.error e => ⟨500, some e, []⟩

/-! ## DBHelper (more_emo/db_helper.py)

The class body of DBHelper defines _get_pool and query twice; Python class
bodies are executed top to bottom into one dictionary, so the later
definition of each name is the one the instances use.  The cursor returned
by the pooled connection is an oracle: executing a statement yields a list
of fetched rows and an affected-row count. -/

namespace DBHelper

/-- The method definitions appearing in the class body of DBHelper, one
constructor per def statement, in source order. -/
inductive MethodDef where
  | initDef
  | getPoolFirst
  | executeDef
  | queryFirst
  | insertDef
  | executeInsertDef
  | executeQueryDef
  | executeUpdateDef
  | getPoolSecond
  | querySecond
  | toJsonDef
  | todayDateDef
  | calcContinuousDaysDef
  | formatSleepRecordDef
deriving DecidableEq, Repr

/-- The class body of DBHelper: each def statement with the attribute name
it binds, in textual order. -/
def classBody : List (String × MethodDef) :=
  [("__init__", MethodDef.initDef),
   ("_get_pool", MethodDef.getPoolFirst),
   ("execute", MethodDef.executeDef),
   ("query", MethodDef.queryFirst),
   ("insert", MethodDef.insertDef),
   ("execute_insert", MethodDef.executeInsertDef),
   ("execute_query", MethodDef.executeQueryDef),
   ("execute_update", MethodDef.executeUpdateDef),
   ("_get_pool", MethodDef.getPoolSecond),
   ("query", MethodDef.querySecond),
   ("to_json", MethodDef.toJsonDef),
   ("today_date", MethodDef.todayDateDef),
   ("calc_continuous_days", MethodDef.calcContinuousDaysDef),
   ("format_sleep_record", MethodDef.formatSleepRecordDef)]

/-- Executing a Python class body binds each def into the class dictionary
in order, so a repeated name keeps its last definition. -/
def effectiveMethod (name : String) : Option MethodDef :=
  (classBody.reverse.find? (fun kv => kv.1 == name)).map (fun kv => kv.2)

/-- ASCII uppercase of a character compared with a target character, on
code points: the upper-casing Python str.upper performs on the ASCII SQL
text involved here. -/
def upperEqChar (d c : Char) : Bool :=
  (if 97 ≤ d.toNat && d.toNat ≤ 122 then d.toNat - 32 else d.toNat) == c.toNat

/-- Does the uppercased input start with the given pattern. -/
def startsWithUpper : List Char → List Char → Bool
  | [], _ => true
  | _ :: _, [] => false
  | p :: ps, d :: ds => upperEqChar d p && startsWithUpper ps ds

/-- Python sql.strip().upper().startswith("SELECT"), character-wise over
code points. -/
def isSelectSql (sql : String) : Bool :=
  startsWithUpper "SELECT".toList (pyStripL sql.toList)

/-- What cursor.execute produced: the fetchable result set and the
affected-row count. -/
structure CursorOutcome where
  rows : List Row
  rowcount : Int
deriving DecidableEq

/-- Value returned by the effective DBHelper.query. -/
inductive QueryResult where
  | resultSet (rows : List Row)
  | affected (n : Int)
deriving DecidableEq, Repr

/-- The effective (second) DBHelper.query: fetch rows for a statement whose
stripped upper-case text starts with SELECT, otherwise commit and return
the affected-row count.  The Bool records whether conn.commit() ran. -/
def query (outcome : CursorOutcome) (sql : String) : QueryResult × Bool :=
  if isSelectSql sql then (QueryResult.resultSet outcome.rows, false)
  else (QueryResult.affected outcome.rowcount, true)

/-! ### DBHelper.calc_continuous_days -/

/-- A value that can appear in the dates list handed to
calc_continuous_days.  A date is a day number (an integer), so that
subtracting one models datetime.timedelta(days=1). -/
inductive PyDateVal where
  | pyNone
  | pyDatetime (d : Int)
  | pyDate (d : Int)
  | pyStr (s : String)
deriving DecidableEq, Repr

/-- The local helper _to_date: None maps to None, a datetime maps to its
date, a date stays, and any other value is stringified, cut to ten
characters and parsed with strptime, a failed parse giving None.  The
strptime call on the third-party datetime library is the oracle strParse. -/
def to_date (strParse : String → Option Int) : PyDateVal → Option Int
  | PyDateVal.pyNone => none
  | PyDateVal.pyDatetime d => some d
  | PyDateVal.pyDate d => some d
  | PyDateVal.pyStr s => strParse ⟨s.toList.take 10⟩

/-- The date_set built by iterating the input and inserting every
successfully parsed date. -/
def dateSet (strParse : String → Option Int) (dates : List PyDateVal) : Finset Int :=
  dates.foldl
    (fun acc d =>
      match to_date strParse d with
      | some dd => insert dd acc
      | none => acc)
    ∅

/-- The while loop of calc_continuous_days: starting at cur, count how many
consecutive days downward belong to the set.  The Python loop terminates
because cur strictly decreases while the set is finite; here each visited
day is erased, which changes no later membership test since cur never
returns to a visited value, and makes the recursion well-founded on the
card of the set. -/
def streakFrom (s : Finset Int) (cur : Int) : Nat :=
  if h : cur ∈ s then streakFrom (s.erase cur) (cur - 1) + 1 else 0
termination_by s.card
decreasing_by exact Finset.card_erase_lt_of_mem h

/-- DBHelper.calc_continuous_days: 0 on an empty input list, otherwise the
streak of consecutive days from today downward inside the parsed set. -/
def calc_continuous_days (strParse : String → Option Int) (today : Int)
    (dates_desc : List PyDateVal) : Nat :=
  if dates_desc.isEmpty then 0
  else streakFrom (dateSet strParse dates_desc) today

end DBHelper

/-! ## Parameterized SQL construction (more_emo/db_helper.py BookDB and
more_emo/app.py login / create_post)

A statement handed to the driver is its SQL text plus the positional
parameter list bound to the %s placeholders.  The multi-line Python string
literals are normalized to single-line text with one space between tokens;
the placeholder structure and every literal SQL token are preserved. -/

/-- A value bound to a %s placeholder. -/
inductive SqlParam where
  | str (s : String)
  | int (n : Int)
deriving DecidableEq, Repr

/-- A statement as handed to DBHelper.query: text plus parameters. -/
structure SqlQuery where
  text : String
  params : List SqlParam
deriving DecidableEq

/-- Sliding-window count of the %s pairs after a given previous
character.  The two pattern characters differ, so windows cannot overlap
and this equals the number of %s occurrences. -/
def countPSAux (prev : Char) : List Char → Nat
  | [] => 0
  | c :: rest => (if prev = '%' && c = 's' then 1 else 0) + countPSAux c rest

/-- Number of %s placeholders in a character list. -/
def countPlaceholdersL : List Char → Nat
  | [] => 0
  | c :: rest => countPSAux c rest

/-- Number of %s placeholders in the SQL text. -/
def countPS (s : String) : Nat := countPlaceholdersL s.toList

/-- Base SELECT of BookDB.get_books before the dynamic filters. -/
def base_books_sql : String :=
  "SELECT id, title, author, cover, brief, category, tags, rating, pages, created_at, updated_at FROM books WHERE 1=1"

/-- Python condition keyword and keyword.strip() over an optional string
argument. -/
def kwActive : Option String → Bool
  | none => false
  | some s => !(s == "") && !(pyStrip s == "")

/-- Python condition category and category.strip() and category != 全部. -/
def catActive : Option String → Bool
  | none => false
  | some s => !(s == "") && !(pyStrip s == "") && !(s == "全部")

/-- BookDB.get_books: build the filtered SELECT, derive the COUNT query
over it, then append ordering and pagination.  Returns the COUNT statement
and the page statement exactly as the two self.db.query calls receive
them. -/
def get_books_queries (keyword category : Option String) (page page_size : Int) :
    SqlQuery × SqlQuery :=
  let offset := (page - 1) * page_size
  let step1 : String × List SqlParam :=
    if kwActive keyword then
      let keyword_like := "%" ++ pyStrip (keyword.getD "") ++ "%"
      (base_books_sql ++ " AND (title LIKE %s OR author LIKE %s OR brief LIKE %s OR tags LIKE %s)",
       [SqlParam.str keyword_like, SqlParam.str keyword_like,
        SqlParam.str keyword_like, SqlParam.str keyword_like])
    else (base_books_sql, [])
  let step2 : String × List SqlParam :=
    if catActive category then
      (step1.1 ++ " AND category = %s",
       step1.2 ++ [SqlParam.str (pyStrip (category.getD ""))])
    else step1
  let count_sql : SqlQuery :=
    ⟨"SELECT COUNT(*) as total FROM (" ++ step2.1 ++ ") as t", step2.2⟩
  let page_sql : SqlQuery :=
    ⟨step2.1 ++ " ORDER BY id DESC LIMIT %s OFFSET %s",
     step2.2 ++ [SqlParam.int page_size, SqlParam.int offset]⟩
  (count_sql, page_sql)

/-- SQL text of the login endpoint. -/
def login_sql : String :=
  "SELECT * FROM login WHERE login_name = %s AND pwd = %s LIMIT 1"

/-- The statement the login endpoint executes for a submitted name and
password: constant text, the two user values as parameters. -/
def login_query (name pwd : String) : SqlQuery :=
  ⟨login_sql, [SqlParam.str name, SqlParam.str pwd]⟩

/-- SQL text of POST /api/posts/create. -/
def create_post_sql : String :=
  "INSERT INTO treehole_posts (anonymous_name, anonymous_avatar, content, mood, category, tags, images, is_burn_after_read, create_time, comment_count) VALUES (%s, %s, %s, %s, %s, %s, %s, %s, NOW(), 0)"

/-- SQL text of POST /api/posts/create_v2. -/
def create_post_v2_sql : String :=
  "INSERT INTO treehole_posts (user_name, content, images_json, create_time) VALUES (%s, %s, %s, NOW())"

/-! ## The two post-creation endpoints (more_emo/app.py)

The request body is the fields the two handlers read; a missing key is
none.  The images value is an opaque JSON payload; create_post passes the
raw value through while create_post_v2 re-serializes it with json.dumps
(oracle jsonDumps).  An executed INSERT is recorded as its table, its SQL
column list and its bound parameters. -/

/-- Fields of the request body read by create_post and create_post_v2. -/
structure PostData where
  content : Option String
  user : Option String
  anonymous_name : Option String
  anonymous_avatar : Option String
  mood : Option String
  category : Option String
  tags : Option String
  images : Option String
  is_burn_after_read : Option Int
deriving DecidableEq, Repr

/-- An INSERT as executed through multi_db_helper.query. -/
structure InsertStmt where
  table : String
  columns : List String
  values : List SqlParam
deriving DecidableEq, Repr

/-- Outcome of a post-creation handler: an early 400 rejection, or the
INSERT it runs together with the JSON body it answers (flattened to
key-value pairs, the nested v2 data object appearing as its user field). -/
inductive PostHandlerResult where
  | badRequest (code : Nat) (msg : String)
  | success (ins : InsertStmt) (resp : List (String × String))
deriving DecidableEq, Repr

/-- Column list in the SQL text of create_post. -/
def create_post_columns : List String :=
  ["anonymous_name", "anonymous_avatar", "content", "mood", "category",
   "tags", "images", "is_burn_after_read", "create_time", "comment_count"]

/-- Column list in the SQL text of create_post_v2. -/
def create_post_v2_columns : List String :=
  ["user_name", "content", "images_json", "create_time"]

/-- Handler of POST /api/posts/create: reject falsy content with 400,
otherwise insert the ten columns (create_time and comment_count are the SQL
literals NOW() and 0, the other eight are %s parameters with the dict-get
defaults of the source) and answer code 200. -/
def create_post (d : PostData) : PostHandlerResult :=
  if !(pyTruthy d.content) then PostHandlerResult.badRequest 400 "内容不能为空"
  else
    PostHandlerResult.success
      ⟨"treehole_posts", create_post_columns,
       [SqlParam.str (d.anonymous_name.getD "匿名用户"),
        SqlParam.str (d.anonymous_avatar.getD "😊"),
        SqlParam.str (d.content.getD ""),
        SqlParam.str (d.mood.getD ""),
        SqlParam.str (d.category.getD ""),
        SqlParam.str (d.tags.getD "[]"),
        SqlParam.str (d.images.getD "[]"),
        SqlParam.int (d.is_burn_after_read.getD 0)]⟩
      [("code", "200"), ("msg", "帖子发布成功")]

/-- Handler of POST /api/posts/create_v2: default user guest, reject falsy
content with 400, otherwise insert the four columns (create_time is NOW())
and answer code 200 with a data object naming the user. -/
def create_post_v2 (jsonDumps : Option String → String) (d : PostData) :
    PostHandlerResult :=
  let user := d.user.getD "guest"
  if !(pyTruthy d.content) then PostHandlerResult.badRequest 400 "内容不能为空"
  else
    PostHandlerResult.success
      ⟨"treehole_posts", create_post_v2_columns,
       [SqlParam.str user,
        SqlParam.str (d.content.getD ""),
        SqlParam.str (jsonDumps d.images)]⟩
      [("code", "200"), ("msg", "发布成功"), ("data", user)]

/-- Column list of the INSERT a handler outcome runs, if any. -/
def insertColumns : PostHandlerResult → Option (List String)
  | PostHandlerResult.badRequest _ _ => none
  | PostHandlerResult.success ins _ => some ins.columns

/-- Keys of the JSON success body of a handler outcome, if any. -/
def respKeys : PostHandlerResult → Option (List String)
  | PostHandlerResult.badRequest _ _ => none
  | PostHandlerResult.success _ resp => some (resp.map (fun kv => kv.1))

/-- Concrete request used against claim C7: a plain content-only post. -/
def c7Data : PostData :=
  ⟨some "hello", none, none, none, none, none, none, none, none⟩

/-- Concrete json.dumps oracle used against claim C7. -/
def c7Dumps : Option String → String := fun _ => "[]"

/-! ## CVFEREngine.predict_from_base64 (DeepFER/src/inference_engine.py)

The handler first repairs the incoming base64 payload (data-URL prefix
removal and padding completion), then hunts for a face over eight pose
candidates, mirroring and rotating the image, each pose first queried with
the dlib frontal detector and, when that returns nothing, with the OpenCV
Haar cascade.  The two detectors are oracles indexed by the pose, since the
pixel transformations themselves are OpenCV library calls. -/

namespace CVFEREngine

/-- Data-URL handling of step A of predict_from_base64: when the payload
contains a comma, keep split(",")[1]. -/
def stripDataUrl (s : String) : String :=
  if pyInStr "," s then (s.splitOn ",").getD 1 "" else s

/-- Step A of predict_from_base64: take the part after the first comma of a
data URL and complete the base64 padding to a multiple of four with =
characters. -/
def fixBase64 (s : String) : String :=
  if (stripDataUrl s).length % 4 ≠ 0 then
    stripDataUrl s ++ String.mk (List.replicate (4 - (stripDataUrl s).length % 4) '=')
  else stripDataUrl s

/-- The three cv2 rotation codes used by the pose loop. -/
inductive Rotation where
  | r90
  | r180
  | r270
deriving DecidableEq, Repr

/-- A pose candidate: whether the image is mirrored, and the rotation
applied (none is the unrotated branch of the loop). -/
abbrev Pose := Bool × Option Rotation

/-- The inner loop order: no rotation, 90, 180, 270 degrees clockwise. -/
def rotationOrder : List (Option Rotation) :=
  [none, some Rotation.r90, some Rotation.r180, some Rotation.r270]

/-- A dlib rectangle. -/
structure Rect where
  left : Int
  top : Int
  width : Int
  height : Int
deriving DecidableEq, Repr

/-- Rectangle area, the key of the max call picking the largest face. -/
def Rect.area (r : Rect) : Int := r.width * r.height

/-- Python max(iterable, key=f): the first element of maximal key. -/
def pyMaxBy (f : Rect → Int) : Rect → List Rect → Rect
  | best, [] => best
  | best, r :: rs => if f r > f best then pyMaxBy f r rs else pyMaxBy f best rs

/-- Detection inside one pose: the dlib detector first, the Haar cascade
only when dlib found nothing. -/
def detectFaces (dlib haar : Pose → List Rect) (p : Pose) : List Rect :=
  let rects := dlib p
  if rects.isEmpty then haar p else rects

/-- The inner for-loop over rotation codes for a fixed mirror flag,
breaking at the first pose with a detection and keeping the largest face
there. -/
def innerSearch (dlib haar : Pose → List Rect) (flip : Bool) :
    List (Option Rotation) → Option (Pose × Rect)
  | [] => none
  | a :: rest =>
    match detectFaces dlib haar (flip, a) with
    | [] => innerSearch dlib haar flip rest
    | r :: rs => some ((flip, a), pyMaxBy Rect.area r rs)

/-- The outer for-loop over the mirror flag with its break-when-found:
the unmirrored rotations first, then the mirrored ones. -/
def searchFace (dlib haar : Pose → List Rect) : Option (Pose × Rect) :=
  match innerSearch dlib haar false rotationOrder with
  | some res => some res
  | none => innerSearch dlib haar true rotationOrder

/-- The eight pose candidates in the order the nested loops visit them. -/
def poseOrder : List Pose :=
  rotationOrder.map (fun a => ((false : Bool), a)) ++
    rotationOrder.map (fun a => ((true : Bool), a))

/-- Concrete dlib oracle used against claim C3: no face in any pose. -/
def c3Dlib : Pose → List Rect := fun _ => []

/-- Concrete Haar oracle used against claim C3: one face, only in the
mirrored 180-degree pose. -/
def c3Haar : Pose → List Rect :=
  fun p => if p = ((true : Bool), some Rotation.r180) then [⟨0, 0, 10, 10⟩] else []

end CVFEREngine

/-! ## Dual-stream feature extraction (DeepFER/src/features.py and the
model input dimension of DeepFER/src/inference_engine.py)

extract_dual_features resizes to IMG_SIZE x IMG_SIZE, converts BGR to RGB
and scales pixels by 1/255 for the image stream, and concatenates the 68
dlib landmarks normalized by IMG_SIZE with the skimage HOG descriptor for
the feature stream.  cv2.resize, the landmark predictor and hog are library
calls: the resized pixels, the landmark list and the HOG vector are inputs
here, the landmark count and the HOG length being the documented contracts
of those libraries for the parameters used. -/

namespace DeepFER

/-- Config.IMG_SIZE. -/
def IMG_SIZE : Nat := 224

/-- Feature dimension the inference engine builds its network with:
build_transfer_model(1704) in CVFEREngine.__init__. -/
def engineFeatureDim : Nat := 1704

/-- Output length of skimage.feature.hog on an h by w single-channel image
with square cells of c pixels, square blocks of b cells and o orientation
bins: blocks slide one cell at a time over the cell grid, each contributing
b * b histograms of o bins.  This is the library contract the source states
in its own comments (224 with cell 16 gives 14 x 14 cells, block 1 gives
14 x 14 blocks, 8 orientations give 14 * 14 * 8 = 1568 values). -/
def hogLength (h w c b o : Nat) : Nat :=
  (h / c - b + 1) * (w / c - b + 1) * b * b * o

/-- Channel swap of cv2.cvtColor(..., COLOR_BGR2RGB). -/
def bgr2rgb (c : Fin 3) : Fin 3 := ⟨2 - c.val, by omega⟩

/-- The image stream tensor: the resized BGR face, converted to RGB and
scaled to float by /255.0. -/
def imgTensorOf (resized : Fin 224 → Fin 224 → Fin 3 → Nat) :
    Fin 224 → Fin 224 → Fin 3 → Rat :=
  fun i j c => (resized i j (bgr2rgb c) : Rat) / 255

/-- The geometric stream: the flattened landmark array divided by
float(IMG_SIZE), row-major x then y per point, followed by the HOG
descriptor. -/
def featVector (landmarks : List (Int × Int)) (hogFeat : List Rat) : List Rat :=
  (landmarks.flatMap fun p =>
    [(p.1 : Rat) / (IMG_SIZE : Rat), (p.2 : Rat) / (IMG_SIZE : Rat)]) ++ hogFeat

end DeepFER

/-! ## SpeechService.convert_audio_with_ffmpeg_python (more_emo/speech_service.py)

The conversion routine is embedded as the sequence of external processes it
invokes plus whether it returns PCM data or raises.  check_ffmpeg_installed
invokes subprocess.run on ffmpeg -version; method one pipes the input
through an asynchronous ffmpeg-python process; method two is a plain
subprocess.run of ffmpeg.  The exception structure decides which run:
when import ffmpeg fails, the except ImportError clause raises a fresh
Exception, which a sibling except clause of the same try statement cannot
catch, so it propagates to the outer handler, which re-raises - method two
never runs.  When the import succeeds, a failed communicate or a nonzero
return code raises inside the inner try body, the sibling except Exception
clause swallows it, and the success path raises nothing, so in every
imported case control falls through to method two. -/

namespace SpeechService

/-- One external process invocation made by the conversion routine. -/
inductive ProcSpawn where
  | ffmpegVersionCheck
  | ffmpegPythonAsync
  | ffmpegSubprocess
deriving DecidableEq, Repr

/-- Environment outcomes the conversion routine observes: whether the
ffmpeg binary answers the version check, whether the input file exists,
whether import ffmpeg succeeds, the return codes of the two conversion
attempts, and whether the PCM output file came out non-empty. -/
structure ConvertEnv where
  ffmpegInstalled : Bool
  inputExists : Bool
  ffmpegPythonAvailable : Bool
  asyncReturncodeZero : Bool
  subReturncodeZero : Bool
  pcmCreatedNonempty : Bool
deriving DecidableEq, Repr

/-- convert_audio_with_ffmpeg_python: the ordered process invocations and
whether PCM data is returned (true) rather than an exception raised
(false).  A failed import of ffmpeg-python aborts the whole conversion
through the re-raising except ImportError clause, before any conversion
process is spawned.  When the import succeeds, the outcome of the
asynchronous attempt never matters: a nonzero return code raises inside
the inner try body and the sibling except Exception clause only prints, a
zero return code reaches the same fall-through, so method two always
follows the asynchronous attempt. -/
def convert_audio (env : ConvertEnv) : List ProcSpawn × Bool :=
  if !env.ffmpegInstalled then ([ProcSpawn.ffmpegVersionCheck], false)
  else if !env.inputExists then ([ProcSpawn.ffmpegVersionCheck], false)
  else if !env.ffmpegPythonAvailable then ([ProcSpawn.ffmpegVersionCheck], false)
  else
    let spawns := [ProcSpawn.ffmpegVersionCheck, ProcSpawn.ffmpegPythonAsync,
      ProcSpawn.ffmpegSubprocess]
    if !env.subReturncodeZero then (spawns, false)
    else (spawns, env.pcmCreatedNonempty)

end SpeechService

/-! ## Concrete oracle stubs used by the claim theorems below -/

/-- Concrete translation oracle used against claim C1. -/
def c1Translate : String → Option String := fun _ => some "the weather is nice today"

/-- Concrete model oracle used against claim C1. -/
def c1Predict : String → Except String (String × Rat) := fun _ => Except.ok ("joy", 9/10)

/-- Concrete failing database oracle used against claim C2. -/
def c2FailDb : String → Except String (List Row) := fun _ => Except.error "db down"

/-- Concrete translation oracle used against claim C2. -/
def c2Translate : String → Option String := fun _ => some "a happy day"

/-- Concrete failing model oracle used against claim C2. -/
def c2FailPredict : String → Except String (String × Rat) := fun _ => Except.error "model crash"

/-- Concrete conversion environment used against claim C5: ffmpeg present,
input present, ffmpeg-python importable, all steps succeeding. -/
def c5Env : SpeechService.ConvertEnv := ⟨true, true, true, true, true, true⟩

/-! ## Helper lemmas -/

theorem pyLastSlice_length_le (m : Nat) (hm : 1 ≤ m) (l : List α) :
    (pyLastSlice m l).length ≤ m := by
  unfold pyLastSlice
  rw [if_neg (by omega)]
  rw [List.length_drop]
  omega

theorem addExchange_bounds (m : Nat) (hm : 1 ≤ m) (u b : String)
    (emo : Option String) (conf : Option Rat) (s : ConvState)
    (hh : s.history.length ≤ m) (ht : s.emotionTrend.length ≤ 10) :
    (addExchange m u b emo conf s).history.length ≤ m ∧
      (addExchange m u b emo conf s).emotionTrend.length ≤ 10 := by
  unfold addExchange
  constructor
  · dsimp only
    split
    · exact pyLastSlice_length_le m hm _
    · simp only [List.length_append, List.length_singleton] at *
      omega
  · dsimp only
    split
    · split
      · exact pyLastSlice_length_le 10 (by omega) _
      · simp only [List.length_append, List.length_singleton] at *
        omega
    · exact ht

theorem runConvOps_bounds (m : Nat) (hm : 1 ≤ m) (ops : List ConvOp)
    (s : ConvState) (hh : s.history.length ≤ m)
    (ht : s.emotionTrend.length ≤ 10) :
    (runConvOps m ops s).history.length ≤ m ∧
      (runConvOps m ops s).emotionTrend.length ≤ 10 := by
  induction ops generalizing s with
  | nil => exact ⟨hh, ht⟩
  | cons op ops ih =>
    cases op with
    | add u b e c =>
      have hb := addExchange_bounds m hm u b e c s hh ht
      exact ih _ hb.1 hb.2
    | reset => exact ih convReset (by simp [convReset]) (by simp [convReset])

theorem EmotionEngine.fallback_analysis_source (text : String) :
    (EmotionEngine.fallback_analysis text).source = "fallback" ∧
      (EmotionEngine.fallback_analysis text).success = true := by
  unfold EmotionEngine.fallback_analysis
  cases EmotionEngine.findRule EmotionEngine.keywords_mapping text <;> exact ⟨rfl, rfl⟩

theorem EmotionEngine.analyzeCounting_le_two (translate : String → Option String)
    (predict : String → Except String (String × Rat))
    (hasTranslator : Bool) (text : String) :
    (EmotionEngine.analyzeCounting translate predict hasTranslator text).2 ≤ 2 := by
  unfold EmotionEngine.analyzeCounting
  cases EmotionEngine.findRule EmotionEngine.high_priority_rules text with
  | some e => simp
  | none =>
    cases hasTranslator
    · simp
    · cases h : translate text with
      | none => simp [h]
      | some t => cases hp : predict t <;> simp [h, hp]

theorem DBHelper.streakFrom_spec (s : Finset Int) : ∀ cur : Int,
    (∀ k : Nat, k < DBHelper.streakFrom s cur → (cur - k) ∈ s) ∧
      (cur - (DBHelper.streakFrom s cur : Int)) ∉ s := by
  induction s using Finset.strongInduction with
  | _ s ih =>
    intro cur
    rw [DBHelper.streakFrom]
    by_cases h : cur ∈ s
    · rw [dif_pos h]
      obtain ⟨ih1, ih2⟩ := ih (s.erase cur) (Finset.erase_ssubset h) (cur - 1)
      constructor
      · intro k hk
        cases k with
        | zero => simpa using h
        | succ j =>
          have hj := ih1 j (by omega)
          have hmem : (cur - 1 - (j : Int)) ∈ s := Finset.mem_of_mem_erase hj
          have heq : cur - ((j + 1 : Nat) : Int) = cur - 1 - (j : Int) := by
            push_cast
            ring
          rw [show ((Nat.succ j : Nat) : Int) = ((j + 1 : Nat) : Int) from rfl, heq]
          exact hmem
      · intro hmem
        apply ih2
        rw [Finset.mem_erase]
        refine ⟨by omega, ?_⟩
        have heq : cur - 1 - ((DBHelper.streakFrom (s.erase cur) (cur - 1) : Nat) : Int)
            = cur - ((DBHelper.streakFrom (s.erase cur) (cur - 1) + 1 : Nat) : Int) := by
          push_cast
          ring
        rw [heq]
        exact hmem
    · rw [dif_neg h]
      refine ⟨fun k hk => absurd hk (by omega), by simpa using h⟩

theorem DBHelper.mem_dateSet_aux (strParse : String → Option Int)
    (dates : List DBHelper.PyDateVal) (acc : Finset Int) (d : Int) :
    (d ∈ dates.foldl
        (fun acc x =>
          match DBHelper.to_date strParse x with
          | some dd => insert dd acc
          | none => acc) acc) ↔
      d ∈ acc ∨ ∃ x ∈ dates, DBHelper.to_date strParse x = some d := by
  induction dates generalizing acc with
  | nil => simp
  | cons y ys ih =>
    rw [List.foldl_cons, ih]
    cases hy : DBHelper.to_date strParse y with
    | none =>
      simp only [List.mem_cons]
      constructor
      · rintro (hd | ⟨x, hx, hxd⟩)
        · exact Or.inl hd
        · exact Or.inr ⟨x, Or.inr hx, hxd⟩
      · rintro (hd | ⟨x, hx | hx, hxd⟩)
        · exact Or.inl hd
        · subst hx
          rw [hy] at hxd
          exact absurd hxd (by simp)
        · exact Or.inr ⟨x, hx, hxd⟩
    | some dd =>
      simp only [Finset.mem_insert, List.mem_cons]
      constructor
      · rintro (⟨hd | hd⟩ | ⟨x, hx, hxd⟩)
        · exact Or.inr ⟨y, Or.inl rfl, by rw [hy, hd]⟩
        · exact Or.inl hd
        · exact Or.inr ⟨x, Or.inr hx, hxd⟩
      · rintro (hd | ⟨x, hx | hx, hxd⟩)
        · exact Or.inl (Or.inr hd)
        · subst hx
          rw [hy] at hxd
          exact Or.inl (Or.inl (by injection hxd with h2; omega))
        · exact Or.inr ⟨x, hx, hxd⟩

theorem DBHelper.mem_dateSet (strParse : String → Option Int)
    (dates : List DBHelper.PyDateVal) (d : Int) :
    d ∈ DBHelper.dateSet strParse dates ↔
      ∃ x ∈ dates, DBHelper.to_date strParse x = some d := by
  rw [DBHelper.dateSet, DBHelper.mem_dateSet_aux]
  simp

/-! ## Claim C8: bounded conversation history and emotion trend -/

/-- C8 counterexample: a ConversationManager constructed with
max_history = 0 does not keep its history at 0 entries, because the Python
truncation slice history[-0:] is history[0:], the whole list; one
add_exchange leaves one stored exchange. -/
theorem c8_counterexample :
    ¬ ((runConvOps 0 c8Ops convInit).history.length ≤ 0) := by decide

/-- C8 (amended): for every ConversationManager constructed with
max_history = m for m at least 1, after any sequence of add_exchange and
reset calls the history holds at most m exchanges and the emotion_trend
list holds at most 10 entries. -/
theorem c8_bounded_history (m : Nat) (hm : 1 ≤ m) (ops : List ConvOp) :
    (runConvOps m ops convInit).history.length ≤ m ∧
      (runConvOps m ops convInit).emotionTrend.length ≤ 10 :=
  runConvOps_bounds m hm ops convInit (by simp [convInit]) (by simp [convInit])

/-- C8 witness: the bound instantiated at max_history = 2 over three
add_exchange calls. -/
theorem c8_bounded_history_witness :
    (runConvOps 2
        [ConvOp.add "a" "b" (some "joy") none,
         ConvOp.add "c" "d" (some "sadness") none,
         ConvOp.add "e" "f" none none] convInit).history.length ≤ 2 ∧
      (runConvOps 2
        [ConvOp.add "a" "b" (some "joy") none,
         ConvOp.add "c" "d" (some "sadness") none,
         ConvOp.add "e" "f" none none] convInit).emotionTrend.length ≤ 10 :=
  c8_bounded_history 2 (by decide)
    [ConvOp.add "a" "b" (some "joy") none,
     ConvOp.add "c" "d" (some "sadness") none,
     ConvOp.add "e" "f" none none]

/-! ## Claim C9: the effective DBHelper.query -/

/-- C9: the second query definition in the DBHelper class body shadows the
first, and the effective query fetches rows exactly when the stripped
upper-cased SQL starts with SELECT, committing and returning the
affected-row count otherwise; in particular the create_post INSERT issued
through query yields an integer count. -/
theorem c9_query_semantics :
    DBHelper.effectiveMethod "query" = some DBHelper.MethodDef.querySecond ∧
    (∀ o : DBHelper.CursorOutcome, ∀ sql : String,
      DBHelper.isSelectSql sql = true →
        DBHelper.query o sql = (DBHelper.QueryResult.resultSet o.rows, false)) ∧
    (∀ o : DBHelper.CursorOutcome, ∀ sql : String,
      DBHelper.isSelectSql sql = false →
        DBHelper.query o sql = (DBHelper.QueryResult.affected o.rowcount, true)) ∧
    DBHelper.isSelectSql "  select * from login  " = true ∧
    DBHelper.isSelectSql create_post_sql = false := by
  refine ⟨by decide, ?_, ?_, by decide, by decide⟩
  · intro o sql h
    unfold DBHelper.query
    rw [if_pos h]
  · intro o sql h
    unfold DBHelper.query
    rw [if_neg (by simp [h])]

/-- C9 witness: an INSERT through query returns the affected-row count and
commits; a SELECT returns the result set without committing. -/
theorem c9_query_semantics_witness :
    DBHelper.query ⟨[], 3⟩ create_post_sql
        = (DBHelper.QueryResult.affected 3, true) ∧
      DBHelper.query ⟨[[("id", "1")]], 0⟩ "SELECT * FROM books"
        = (DBHelper.QueryResult.resultSet [[("id", "1")]], false) :=
  ⟨c9_query_semantics.2.2.1 ⟨[], 3⟩ create_post_sql (by decide),
   c9_query_semantics.2.1 ⟨[[("id", "1")]], 0⟩ "SELECT * FROM books" (by decide)⟩

/-! ## Claim C10: calc_continuous_days -/

/-- C10: calc_continuous_days returns the largest n such that today,
today minus 1, ..., today minus (n-1) all occur among the parsed dates:
every day it counts occurs, no larger count has that property, the empty
list gives 0, and a list not containing today gives 0. -/
theorem c10_calc_continuous_days (strParse : String → Option Int) (today : Int)
    (dates : List DBHelper.PyDateVal) :
    (∀ k : Nat, k < DBHelper.calc_continuous_days strParse today dates →
        ∃ x ∈ dates, DBHelper.to_date strParse x = some (today - k)) ∧
    (∀ n : Nat,
        (∀ k : Nat, k < n → ∃ x ∈ dates, DBHelper.to_date strParse x = some (today - k)) →
        n ≤ DBHelper.calc_continuous_days strParse today dates) ∧
    DBHelper.calc_continuous_days strParse today [] = 0 ∧
    ((¬ ∃ x ∈ dates, DBHelper.to_date strParse x = some today) →
        DBHelper.calc_continuous_days strParse today dates = 0) := by
  have hsound : ∀ k : Nat, k < DBHelper.calc_continuous_days strParse today dates →
      ∃ x ∈ dates, DBHelper.to_date strParse x = some (today - k) := by
    intro k hk
    unfold DBHelper.calc_continuous_days at hk
    by_cases hd : dates.isEmpty
    · rw [if_pos hd] at hk
      omega
    · rw [if_neg hd] at hk
      have hmem := (DBHelper.streakFrom_spec (DBHelper.dateSet strParse dates) today).1 k hk
      exact (DBHelper.mem_dateSet strParse dates _).mp hmem
  have hmax : ∀ n : Nat,
      (∀ k : Nat, k < n → ∃ x ∈ dates, DBHelper.to_date strParse x = some (today - k)) →
      n ≤ DBHelper.calc_continuous_days strParse today dates := by
    intro n hn
    by_contra hlt
    push_neg at hlt
    have hocc := hn (DBHelper.calc_continuous_days strParse today dates) (by omega)
    unfold DBHelper.calc_continuous_days at hocc hlt
    by_cases hd : dates.isEmpty
    · rw [List.isEmpty_iff] at hd
      subst hd
      simp at hocc
    · rw [if_neg hd] at hocc hlt
      have hmem : (today - ((DBHelper.streakFrom (DBHelper.dateSet strParse dates) today : Nat) : Int))
          ∈ DBHelper.dateSet strParse dates :=
        (DBHelper.mem_dateSet strParse dates _).mpr hocc
      exact (DBHelper.streakFrom_spec (DBHelper.dateSet strParse dates) today).2 hmem
  refine ⟨hsound, hmax, rfl, ?_⟩
  intro hnone
  by_contra h0
  have h1 : 0 < DBHelper.calc_continuous_days strParse today dates :=
    Nat.pos_of_ne_zero h0
  have := hsound 0 h1
  exact hnone (by simpa using this)

/-- C10 witness: with parsed day numbers 100, 99 and 97 present, the
maximality direction pushes the streak from day 100 to at least 2. -/
theorem c10_calc_continuous_days_witness :
    2 ≤ DBHelper.calc_continuous_days (fun _ => none) 100
        [DBHelper.PyDateVal.pyDate 100, DBHelper.PyDateVal.pyDate 99,
         DBHelper.PyDateVal.pyDate 97] :=
  (c10_calc_continuous_days (fun _ => none) 100
      [DBHelper.PyDateVal.pyDate 100, DBHelper.PyDateVal.pyDate 99,
       DBHelper.PyDateVal.pyDate 97]).2.1 2 (by decide)

/-! ## Claim C4: user values reach the SQL engine only through %s
parameters -/

/-- C4: in the cited database operations every user-supplied value travels
in the parameter list, never in the statement text: the get_books texts
depend only on which filters are active, not on the keyword or category
strings; the login text is one constant; and in every case the number of %s
placeholders in the text equals the number of bound parameters, the
create_post INSERT binding its eight user values against its eight
placeholders. -/
theorem c4_parameterized_sql :
    (∀ kw kw2 cat cat2 : Option String, ∀ page page_size : Int,
      kwActive kw = kwActive kw2 → catActive cat = catActive cat2 →
        (get_books_queries kw cat page page_size).1.text
            = (get_books_queries kw2 cat2 page page_size).1.text ∧
          (get_books_queries kw cat page page_size).2.text
            = (get_books_queries kw2 cat2 page page_size).2.text) ∧
    (∀ kw cat : Option String, ∀ page page_size : Int,
      countPS (get_books_queries kw cat page page_size).1.text
          = (get_books_queries kw cat page page_size).1.params.length ∧
        countPS (get_books_queries kw cat page page_size).2.text
          = (get_books_queries kw cat page page_size).2.params.length) ∧
    (∀ n p n2 p2 : String, (login_query n p).text = (login_query n2 p2).text) ∧
    (∀ n p : String, countPS (login_query n p).text = (login_query n p).params.length) ∧
    (∀ d : PostData, pyTruthy d.content = true →
      ∃ ins resp, create_post d = PostHandlerResult.success ins resp ∧
        ins.values.length = countPS create_post_sql) := by
  refine ⟨?_, ?_, fun n p n2 p2 => rfl, ?_, ?_⟩
  · intro kw kw2 cat cat2 page page_size hkw hcat
    unfold get_books_queries
    rw [hkw, hcat]
    cases kwActive kw2 <;> cases catActive cat2 <;> simp
  · intro kw cat page page_size
    unfold get_books_queries
    cases h1 : kwActive kw <;> cases h2 : catActive cat <;>
      simp only [h1, h2, Bool.false_eq_true, if_false, if_true] <;>
      exact ⟨rfl, rfl⟩
  · intro n p
    rfl
  · intro d hd
    refine ⟨⟨"treehole_posts", create_post_columns,
      [SqlParam.str (d.anonymous_name.getD "匿名用户"),
       SqlParam.str (d.anonymous_avatar.getD "😊"),
       SqlParam.str (d.content.getD ""),
       SqlParam.str (d.mood.getD ""),
       SqlParam.str (d.category.getD ""),
       SqlParam.str (d.tags.getD "[]"),
       SqlParam.str (d.images.getD "[]"),
       SqlParam.int (d.is_burn_after_read.getD 0)]⟩,
      [("code", "200"), ("msg", "帖子发布成功")], ?_, rfl⟩
    unfold create_post
    rw [hd]
    rfl

/-- C4 witness: two different active keywords and categories produce the
same statement texts, and the placeholder count matches the parameter count
on a concrete filtered call. -/
theorem c4_parameterized_sql_witness :
    ((get_books_queries (some "harry") (some "小说") 1 10).1.text
        = (get_books_queries (some "  potter  ") (some "文学") 1 10).1.text ∧
      (get_books_queries (some "harry") (some "小说") 1 10).2.text
        = (get_books_queries (some "  potter  ") (some "文学") 1 10).2.text) ∧
      countPS (get_books_queries (some "harry") (some "小说") 1 10).2.text
        = (get_books_queries (some "harry") (some "小说") 1 10).2.params.length :=
  ⟨c4_parameterized_sql.1 (some "harry") (some "  potter  ") (some "小说")
      (some "文学") 1 10 (by decide) (by decide),
   (c4_parameterized_sql.2.1 (some "harry") (some "小说") 1 10).2⟩

/-! ## Claim C7: the two post-creation endpoints are not equivalent -/

/-- C7 counterexample: on the same content-only request the two handlers
produce different outcomes, so /api/posts/create and /api/posts/create_v2
are not behaviorally equivalent. -/
theorem c7_counterexample :
    create_post c7Data ≠ create_post_v2 c7Dumps c7Data := by decide

/-- C7 (amended): the two post-creation endpoints agree only on rejecting
falsy content with code 400; on success they write different column lists
into treehole_posts and answer different response shapes, so they are two
incompatible variants rather than equivalent versions. -/
theorem c7_two_incompatible_endpoints (jd : Option String → String) (d : PostData) :
    (pyTruthy d.content = false →
        create_post d = PostHandlerResult.badRequest 400 "内容不能为空" ∧
          create_post_v2 jd d = PostHandlerResult.badRequest 400 "内容不能为空") ∧
    (pyTruthy d.content = true →
        insertColumns (create_post d) = some create_post_columns ∧
          insertColumns (create_post_v2 jd d) = some create_post_v2_columns ∧
          respKeys (create_post d) = some ["code", "msg"] ∧
          respKeys (create_post_v2 jd d) = some ["code", "msg", "data"]) ∧
    create_post_columns ≠ create_post_v2_columns := by
  refine ⟨?_, ?_, by decide⟩
  · intro h
    unfold create_post create_post_v2
    rw [h]
    exact ⟨rfl, rfl⟩
  · intro h
    unfold create_post create_post_v2
    rw [h]
    exact ⟨rfl, rfl, rfl, rfl⟩

/-- C7 witness: the incompatibility instantiated on a concrete accepted
request. -/
theorem c7_two_incompatible_endpoints_witness :
    insertColumns (create_post c7Data) = some create_post_columns ∧
      insertColumns (create_post_v2 c7Dumps c7Data) = some create_post_v2_columns ∧
      respKeys (create_post c7Data) = some ["code", "msg"] ∧
      respKeys (create_post_v2 c7Dumps c7Data) = some ["code", "msg", "data"] :=
  (c7_two_incompatible_endpoints c7Dumps c7Data).2.1 (by decide)

/-! ## Claim C1: EmotionEngine.analyze is not a single-call wrapper -/

/-- C1 counterexample: on an input that matches no rule, analyze performs
two external steps, the translation API call and the model prediction, so
it does not perform at most one external model/API step. -/
theorem c1_counterexample :
    ¬ ((EmotionEngine.analyzeCounting c1Translate c1Predict true "今天天气不错").2 ≤ 1) := by
  decide

/-- C1 (amended): EmotionEngine.analyze performs at most two external
model/API steps per input, and it contains decision logic of its own: the
high-priority rule layer answers rule-matched inputs with no external step
at all. -/
theorem c1_analyze_at_most_two_steps (translate : String → Option String)
    (predict : String → Except String (String × Rat)) (hasTranslator : Bool)
    (text : String) :
    (EmotionEngine.analyzeCounting translate predict hasTranslator text).2 ≤ 2 ∧
      (EmotionEngine.analyzeCounting translate predict hasTranslator "气死我了").2 = 0 ∧
      (EmotionEngine.analyzeCounting translate predict hasTranslator "气死我了").1.source
        = "rule" := by
  have h : EmotionEngine.findRule EmotionEngine.high_priority_rules "气死我了"
      = some "anger" := by decide
  refine ⟨EmotionEngine.analyzeCounting_le_two translate predict hasTranslator text, ?_, ?_⟩ <;>
    · unfold EmotionEngine.analyzeCounting
      rw [h]

/-! ## Claim C2: uncaught endpoint exceptions and existing fallbacks -/

/-- C2 counterexample: the GET /api/posts handler has no try/except, so a
database exception leaves it uncaught instead of becoming a JSON code-500
body; and when the model call fails, EmotionEngine.analyze recovers by an
alternative computation, the keyword fallback, here classifying the input
as joy. -/
theorem c2_counterexample :
    get_posts c2FailDb = Except.error "db down" ∧
      (EmotionEngine.analyzeCounting c2Translate c2FailPredict true "开心的一天").1.source
        = "fallback" ∧
      (EmotionEngine.analyzeCounting c2Translate c2FailPredict true "开心的一天").1.emotion
        = "joy" := by
  refine ⟨rfl, ?_, ?_⟩ <;> decide

/-- C2 (amended): handlers such as GET /api/posts/list do catch every
exception into a JSON code-500 body, but GET /api/posts propagates
exceptions uncaught, and a recovery policy exists: whenever the model call
fails on a rule-free input, analyze falls back to the keyword analysis and
still reports success. -/
theorem c2_error_handling (jsonParse : String → Option String) (e : String)
    (translate : String → Option String)
    (predict : String → Except String (String × Rat)) (text t msg : String)
    (h1 : EmotionEngine.findRule EmotionEngine.high_priority_rules text = none)
    (h2 : translate text = some t)
    (h3 : predict t = Except.error msg) :
    get_posts (fun _ => Except.error e) = Except.error e ∧
      get_posts_list jsonParse (fun _ => Except.error e) = ⟨500, some e, []⟩ ∧
      (EmotionEngine.analyzeCounting translate predict true text).1.source = "fallback" ∧
      (EmotionEngine.analyzeCounting translate predict true text).1.success = true := by
  have hres : EmotionEngine.analyzeCounting translate predict true text
      = (EmotionEngine.fallback_analysis text, 2) := by
    unfold EmotionEngine.analyzeCounting
    rw [h1]
    simp [h2, h3]
  refine ⟨rfl, rfl, ?_, ?_⟩
  · rw [hres]
    exact (EmotionEngine.fallback_analysis_source text).1
  · rw [hres]
    exact (EmotionEngine.fallback_analysis_source text).2

/-- C2 witness: the amended statement instantiated with the concrete
failing oracles. -/
theorem c2_error_handling_witness :
    get_posts (fun _ => Except.error "boom") = Except.error "boom" ∧
      get_posts_list (fun _ => none) (fun _ => Except.error "boom") = ⟨500, some "boom", []⟩ ∧
      (EmotionEngine.analyzeCounting c2Translate c2FailPredict true "开心的一天").1.source
        = "fallback" ∧
      (EmotionEngine.analyzeCounting c2Translate c2FailPredict true "开心的一天").1.success
        = true :=
  c2_error_handling (fun _ => none) "boom" c2Translate c2FailPredict "开心的一天"
    "a happy day" "model crash" (by decide) (by rfl) (by rfl)

/-! ## Claim C3: predict_from_base64 repairs input, searches poses and
falls back between detectors -/

theorem innerSearch_isSome (dlib haar : CVFEREngine.Pose → List CVFEREngine.Rect)
    (flip : Bool) (rots : List (Option CVFEREngine.Rotation)) :
    (CVFEREngine.innerSearch dlib haar flip rots).isSome
      ↔ ∃ a ∈ rots, CVFEREngine.detectFaces dlib haar (flip, a) ≠ [] := by
  induction rots with
  | nil => simp [CVFEREngine.innerSearch]
  | cons a rest ih =>
    unfold CVFEREngine.innerSearch
    cases h : CVFEREngine.detectFaces dlib haar (flip, a) with
    | nil =>
      rw [ih]
      simp only [List.mem_cons]
      constructor
      · rintro ⟨x, hx, hne⟩
        exact ⟨x, Or.inr hx, hne⟩
      · rintro ⟨x, hx | hx, hne⟩
        · subst hx
          exact absurd h hne
        · exact ⟨x, hx, hne⟩
    | cons r rs =>
      simp only [Option.isSome_some, true_iff]
      exact ⟨a, List.mem_cons_self a rest, by rw [h]; simp⟩

/-- C3 counterexample: the handler is not a straight-line composition: it
rewrites the incoming payload (completing the base64 padding of a six
character input) and, with the dlib detector failing in every pose, it
still finds a face through the Haar fallback in the mirrored 180-degree
pose, the sixth pose candidate it searches. -/
theorem c3_counterexample :
    CVFEREngine.fixBase64 "YWJjZA" ≠ "YWJjZA" ∧
      CVFEREngine.searchFace CVFEREngine.c3Dlib CVFEREngine.c3Haar
        = some (((true : Bool), some CVFEREngine.Rotation.r180), ⟨0, 0, 10, 10⟩) := by
  refine ⟨by decide, by decide⟩

/-- C3 (amended): predict_from_base64 repairs the payload so that the
base64 text length is always a multiple of four, its pose search succeeds
exactly when one of the eight mirror/rotation candidates has a detection,
and within each pose the Haar cascade result is used whenever dlib returns
no face. -/
theorem c3_repair_search_fallback
    (dlib haar : CVFEREngine.Pose → List CVFEREngine.Rect) :
    (∀ s : String, (CVFEREngine.fixBase64 s).length % 4 = 0) ∧
    ((CVFEREngine.searchFace dlib haar).isSome
        ↔ ∃ p ∈ CVFEREngine.poseOrder, CVFEREngine.detectFaces dlib haar p ≠ []) ∧
    (∀ p : CVFEREngine.Pose, dlib p = [] →
        CVFEREngine.detectFaces dlib haar p = haar p) := by
  refine ⟨?_, ?_, ?_⟩
  · intro s
    unfold CVFEREngine.fixBase64
    by_cases h : (CVFEREngine.stripDataUrl s).length % 4 ≠ 0
    · rw [if_pos h]
      rw [String.length_append]
      have hr : (String.mk (List.replicate (4 - (CVFEREngine.stripDataUrl s).length % 4) '=')).length
          = 4 - (CVFEREngine.stripDataUrl s).length % 4 := by
        show (List.replicate (4 - (CVFEREngine.stripDataUrl s).length % 4) '=').length = _
        exact List.length_replicate _ _
      rw [hr]
      omega
    · rw [if_neg h]
      omega
  · unfold CVFEREngine.searchFace
    cases h : CVFEREngine.innerSearch dlib haar false CVFEREngine.rotationOrder with
    | some res =>
      simp only [Option.isSome_some, true_iff]
      have hs : (CVFEREngine.innerSearch dlib haar false CVFEREngine.rotationOrder).isSome := by
        rw [h]
        rfl
      obtain ⟨a, ha, hne⟩ := (innerSearch_isSome dlib haar false CVFEREngine.rotationOrder).mp hs
      refine ⟨((false : Bool), a), ?_, hne⟩
      unfold CVFEREngine.poseOrder
      exact List.mem_append_left _ (List.mem_map_of_mem _ ha)
    | none =>
      have hnone := (innerSearch_isSome dlib haar false CVFEREngine.rotationOrder)
      rw [h] at hnone
      simp only [Option.isSome_none, Bool.false_eq_true, false_iff] at hnone
      push_neg at hnone
      rw [innerSearch_isSome dlib haar true CVFEREngine.rotationOrder]
      constructor
      · rintro ⟨a, ha, hne⟩
        refine ⟨((true : Bool), a), ?_, hne⟩
        unfold CVFEREngine.poseOrder
        exact List.mem_append_right _ (List.mem_map_of_mem _ ha)
      · rintro ⟨p, hp, hne⟩
        unfold CVFEREngine.poseOrder at hp
        rcases List.mem_append.mp hp with hp | hp
        · obtain ⟨a, ha, rfl⟩ := List.mem_map.mp hp
          exact absurd (hnone a ha) hne
        · obtain ⟨a, ha, rfl⟩ := List.mem_map.mp hp
          exact ⟨a, ha, hne⟩
  · intro p hp
    unfold CVFEREngine.detectFaces
    rw [hp]
    rfl

/-- C3 witness: the padding invariant on a concrete payload, and the Haar
fallback on a pose where the stub dlib detector finds nothing. -/
theorem c3_repair_search_fallback_witness :
    (CVFEREngine.fixBase64 "YWJjZA").length % 4 = 0 ∧
      CVFEREngine.detectFaces CVFEREngine.c3Dlib CVFEREngine.c3Haar
          ((true : Bool), some CVFEREngine.Rotation.r180)
        = CVFEREngine.c3Haar ((true : Bool), some CVFEREngine.Rotation.r180) :=
  ⟨(c3_repair_search_fallback CVFEREngine.c3Dlib CVFEREngine.c3Haar).1 "YWJjZA",
   (c3_repair_search_fallback CVFEREngine.c3Dlib CVFEREngine.c3Haar).2.2
     ((true : Bool), some CVFEREngine.Rotation.r180) (by rfl)⟩

/-! ## Claim C5: process creation beyond the two pools -/

/-- C5 counterexample: a successful audio conversion spawns an
asynchronous ffmpeg-python process and an ffmpeg subprocess, so the
connection pool and the preprocessing process pool are not the only
process/concurrency constructs the program creates. -/
theorem c5_counterexample :
    SpeechService.ProcSpawn.ffmpegPythonAsync ∈ (SpeechService.convert_audio c5Env).1 ∧
      SpeechService.ProcSpawn.ffmpegSubprocess ∈ (SpeechService.convert_audio c5Env).1 := by
  refine ⟨by decide, by decide⟩

/-- C5 (amended): besides the database connection pool and the
preprocessing process pool, the speech service creates external processes:
with ffmpeg installed and the input present, when ffmpeg-python imports
every conversion runs the version-check invocation, the asynchronous
ffmpeg-python process and always the ffmpeg subprocess, regardless of the
outcome of the asynchronous attempt; when ffmpeg-python is not importable
the re-raised ImportError aborts the conversion after the version check,
so no conversion process is spawned and the routine raises. -/
theorem c5_ffmpeg_processes (env : SpeechService.ConvertEnv)
    (h1 : env.ffmpegInstalled = true) (h2 : env.inputExists = true) :
    (env.ffmpegPythonAvailable = true →
      (SpeechService.convert_audio env).1
          = [SpeechService.ProcSpawn.ffmpegVersionCheck,
             SpeechService.ProcSpawn.ffmpegPythonAsync,
             SpeechService.ProcSpawn.ffmpegSubprocess] ∧
        SpeechService.ProcSpawn.ffmpegSubprocess ∈ (SpeechService.convert_audio env).1) ∧
    (env.ffmpegPythonAvailable = false →
      (SpeechService.convert_audio env).1 = [SpeechService.ProcSpawn.ffmpegVersionCheck] ∧
        (SpeechService.convert_audio env).2 = false) := by
  obtain ⟨a, b, c, d, e, f⟩ := env
  simp only at h1 h2
  subst h1
  subst h2
  constructor <;> intro hc <;> simp only at hc <;> subst hc <;>
    cases e <;> simp [SpeechService.convert_audio]

/-- C5 witness: the process trace of the all-success environment, in which
ffmpeg-python is importable. -/
theorem c5_ffmpeg_processes_witness :
    (SpeechService.convert_audio c5Env).1
      = [SpeechService.ProcSpawn.ffmpegVersionCheck,
         SpeechService.ProcSpawn.ffmpegPythonAsync,
         SpeechService.ProcSpawn.ffmpegSubprocess] ∧
      SpeechService.ProcSpawn.ffmpegSubprocess ∈ (SpeechService.convert_audio c5Env).1 :=
  (c5_ffmpeg_processes c5Env rfl rfl).1 rfl

/-! ## Claim C6: the dual-stream feature dimensions -/

theorem flatMap_pair_length (l : List (Int × Int)) (f g : Int × Int → Rat) :
    (l.flatMap fun p => [f p, g p]).length = 2 * l.length := by
  induction l with
  | nil => simp
  | cons p ps ih =>
    rw [List.flatMap_cons, List.length_append, ih]
    simp
    omega

/-- C6: extract_dual_features produces a 224 by 224 by 3 image tensor with
entries in [0,1] (uint8 pixels scaled by 1/255) and a feature vector of
exactly 1704 entries: first the 68 landmark coordinate pairs divided by
224, 136 values, then the HOG descriptor of a 224 by 224 grayscale image
with 8 orientations, 16 by 16 cells and 1 by 1 blocks, 14 * 14 * 8 = 1568
values; and 1704 is exactly the feature dimension the inference engine
passes to build_transfer_model. -/
theorem c6_dual_feature_dimensions (resized : Fin 224 → Fin 224 → Fin 3 → Nat)
    (hpix : ∀ i j c, resized i j c ≤ 255)
    (landmarks : List (Int × Int)) (hlm : landmarks.length = 68)
    (hogFeat : List Rat) (hhog : hogFeat.length = DeepFER.hogLength 224 224 16 1 8) :
    (DeepFER.featVector landmarks hogFeat).length = 1704 ∧
      DeepFER.hogLength 224 224 16 1 8 = 1568 ∧
      (DeepFER.featVector landmarks hogFeat).length = DeepFER.engineFeatureDim ∧
      (DeepFER.featVector landmarks hogFeat).drop 136 = hogFeat ∧
      (∀ i j c, 0 ≤ DeepFER.imgTensorOf resized i j c ∧
        DeepFER.imgTensorOf resized i j c ≤ 1) := by
  have hflat : (landmarks.flatMap fun p =>
      [(p.1 : Rat) / (DeepFER.IMG_SIZE : Rat), (p.2 : Rat) / (DeepFER.IMG_SIZE : Rat)]).length
      = 136 := by
    rw [flatMap_pair_length, hlm]
  have hlen : (DeepFER.featVector landmarks hogFeat).length = 1704 := by
    unfold DeepFER.featVector
    rw [List.length_append, hflat, hhog]
    decide
  refine ⟨hlen, by decide, by rw [hlen]; rfl, ?_, ?_⟩
  · unfold DeepFER.featVector
    rw [← hflat, List.drop_left]
  · intro i j c
    unfold DeepFER.imgTensorOf
    constructor
    · positivity
    · rw [div_le_one (by norm_num)]
      exact_mod_cast hpix i j (DeepFER.bgr2rgb c)

/-- C6 witness: the 1704 total on concrete landmark and HOG vectors of the
library-contract lengths. -/
theorem c6_dual_feature_dimensions_witness :
    (DeepFER.featVector (List.replicate 68 ((0 : Int), (0 : Int)))
        (List.replicate 1568 (0 : Rat))).length = 1704 :=
  (c6_dual_feature_dimensions (fun _ _ _ => 0) (fun _ _ _ => by norm_num)
      (List.replicate 68 ((0 : Int), (0 : Int))) (by simp)
      (List.replicate 1568 (0 : Rat)) (by simp [DeepFER.hogLength])).1

end Competition
